import Mathlib

set_option linter.dupNamespace false

/-!
Shallow embedding of the Cobitis tank-monitor daemon (Rust sources:
`measurements.rs`, `signal.rs`, `api.rs`, `display.rs`, `main.rs`).

Modelling conventions:
* `f64` arithmetic is modelled by exact rationals (`ℚ`); Rust's
  `f64::round` (nearest integer, ties away from zero) is `roundAway`.
* Timestamps (`Utc::now()`) are passed in as an explicit `now : ℕ`
  (milliseconds since the epoch).
* The external world (sensor-file contents, `iwconfig` output, the ADC
  transaction result) enters each tick as explicit parameters.
* Rust's `Result` is `Except String`, `Option` stays `Option`.
* A `parse::<i32>().unwrap()` panic on overflow aborts the blocking task;
  the awaiting caller observes it as an error of the tick, which the
  embedding returns explicitly.
-/

namespace Cobitis

/-- Rust `f64::round` on the rational model: nearest integer, ties rounded
away from zero. -/
def roundAway (x : ℚ) : ℤ := if 0 ≤ x then ⌊x + 1 / 2⌋ else -⌊-x + 1 / 2⌋

/-- ASCII whitespace accepted by the regex class `\s`. -/
def isSpace (c : Char) : Bool :=
  c = ' ' || c = '\t' || c = '\n' || c = '\r' || c = '\x0b' || c = '\x0c'

/-- Value of a digit string, most significant digit first (the semantics of
`str::parse` on a `[0-9]+` capture). -/
def digitsToNat (ds : List Char) : ℕ :=
  ds.foldl (fun a c => a * 10 + (c.toNat - 48)) 0

/-- Strip an exact literal from the front of the input, returning the rest. -/
def stripLit : List Char → List Char → Option (List Char)
  | [], cs => some cs
  | _, [] => none
  | l :: ls, c :: cs => if c = l then stripLit ls cs else none

namespace Measurements

/-- The `Measurements` snapshot of `measurements.rs`. -/
structure Measurements where
  timestamp : ℕ
  temperature : ℚ
  tds : ℚ
deriving Repr, DecidableEq

/-- Match of the regex `t=\s*([0-9]+)` anchored at the start of the input,
returning the captured (greedy) digit run. -/
def matchTempAt (cs : List Char) : Option (List Char) :=
  match stripLit ("t=".data) cs with
  | none => none
  | some rest =>
    let r1 := rest.dropWhile isSpace
    let ds := r1.takeWhile Char.isDigit
    if ds.isEmpty then none else some ds

/-- Leftmost match of the temperature regex over the whole sensor-file
content (`Regex::captures` semantics). -/
def findTemp : List Char → Option (List Char)
  | [] => none
  | c :: cs =>
    match matchTempAt (c :: cs) with
    | some ds => some ds
    | none => findTemp cs

/-- Temperature computed in `measurements::read` from the captured
milli-degrees: `(f64::from(millis) / 100.0).round() / 10.0`. -/
def temperature_of (millis : ℕ) : ℚ :=
  (roundAway ((millis : ℚ) / 100) : ℚ) / 10

/-- The temperature block of `measurements::read`: regex match over the file
content, `i32` parse of the capture (overflow panics the blocking task,
surfaced as an error of the tick), then the conversion. -/
def readTemperature (content : List Char) : Except String ℚ :=
  match findTemp content with
  | none => .error "Invalid format"
  | some ds =>
    if digitsToNat ds < 2 ^ 31 then .ok (temperature_of (digitsToNat ds))
    else .error "overflow"

/-- `const MAX_VOLTAGE: f64 = 4.096`. -/
def MAX_VOLTAGE : ℚ := 4096 / 1000

/-- `const MAX_RAW_VALUE: f64 = 32767.0`. -/
def MAX_RAW_VALUE : ℚ := 32767

/-- `voltage = f64::from(raw_value) * MAX_VOLTAGE / MAX_RAW_VALUE`. -/
def voltage_of (raw : ℤ) : ℚ := (raw : ℚ) * MAX_VOLTAGE / MAX_RAW_VALUE

/-- The TDS block of `measurements::read`: temperature compensation of the
ADC voltage, the calibration polynomial halved, then rounding to one
decimal. -/
def tds_of (raw : ℤ) (temperature : ℚ) : ℚ :=
  let coefficient := 1 + 2 / 100 * (temperature - 25)
  let voltage := voltage_of raw / coefficient
  let tds :=
    (13342 / 100 * voltage ^ 3 - 25586 / 100 * voltage ^ 2 + 85739 / 100 * voltage) * (1 / 2)
  (roundAway (tds * 10) : ℚ) / 10

/-- One `measurements::read` cycle: the sensor-file read (`content` is its
outcome, an error modelling `fs::read_to_string` failing), the temperature
block, then the ADC transaction (outcome `adc`), then the snapshot. -/
def read (content : Except String (List Char)) (adc : Except String ℤ) (now : ℕ) :
    Except String Measurements :=
  match content with
  | .error e => .error e
  | .ok raw =>
    match readTemperature raw with
    | .error e => .error e
    | .ok temperature =>
      match adc with
      | .error e => .error e
      | .ok rawValue => .ok ⟨now, temperature, tds_of rawValue temperature⟩

/-- One `measurements::update` cycle: a successful read replaces the store
wholesale with the new snapshot; a failed read leaves it untouched and
returns the error (logged by the worker). -/
def update (content : Except String (List Char)) (adc : Except String ℤ) (now : ℕ)
    (store : Option Measurements) : Option Measurements × Except String Unit :=
  match read content adc now with
  | .ok m => (some m, .ok ())
  | .error e => (store, .error e)

end Measurements

namespace Signal

/-- The `Signal` snapshot of `signal.rs`. -/
structure Signal where
  timestamp : ℕ
  quality : ℚ
deriving Repr, DecidableEq

/-- Match of the regex `Link Quality=\s*([0-9]+)\s*/\s*([0-9]+)` anchored at
the start of the input, returning the two captured (greedy) digit runs. -/
def matchQualityAt (cs : List Char) : Option (List Char × List Char) :=
  match stripLit ("Link Quality=".data) cs with
  | none => none
  | some rest =>
    let r1 := rest.dropWhile isSpace
    let num := r1.takeWhile Char.isDigit
    if num.isEmpty then none
    else
      match (r1.dropWhile Char.isDigit).dropWhile isSpace with
      | '/' :: r2 =>
        let r3 := r2.dropWhile isSpace
        let den := r3.takeWhile Char.isDigit
        if den.isEmpty then none else some (num, den)
      | _ => none

/-- Leftmost match of the quality regex over the whole captured `iwconfig`
output (`Regex::captures` semantics). -/
def findQuality : List Char → Option (List Char × List Char)
  | [] => none
  | c :: cs =>
    match matchQualityAt (c :: cs) with
    | some r => some r
    | none => findQuality cs

/-- Quality computed in `signal::read`:
`(f64::from(num) / f64::from(denom) * 100.0).round() / 100.0`. -/
def quality_of (num den : ℕ) : ℚ :=
  (roundAway ((num : ℚ) / (den : ℚ) * 100) : ℚ) / 100

/-- One `signal::read` cycle: `output` is the combined outcome of the
`iwconfig` invocation and the UTF-8 decoding of its stdout (an error models
either step failing), then the regex match, the `i32` parses of the
captures (overflow panics the blocking task, surfaced as an error of the
tick), then the quality computation. -/
def read (output : Except String (List Char)) (now : ℕ) : Except String Signal :=
  match output with
  | .error e => .error e
  | .ok raw =>
    match findQuality raw with
    | none => .error "Invalid format"
    | some (nds, dds) =>
      if digitsToNat nds < 2 ^ 31 ∧ digitsToNat dds < 2 ^ 31 then
        .ok ⟨now, quality_of (digitsToNat nds) (digitsToNat dds)⟩
      else .error "overflow"

/-- One `signal::update` cycle: a successful read replaces the store
wholesale with the new snapshot; a failed read leaves it untouched and
returns the error (logged by the worker). -/
def update (output : Except String (List Char)) (now : ℕ) (store : Option Signal) :
    Option Signal × Except String Unit :=
  match read output now with
  | .ok s => (some s, .ok ())
  | .error e => (store, .error e)

end Signal

namespace Api

/-- The only status code the handlers produce explicitly:
`StatusCode::NO_CONTENT` (HTTP 204). -/
inductive StatusCode where
  | noContent
deriving Repr, DecidableEq

/-- `Option::ok_or`: `Some(v)` becomes `Ok(v)`, `None` becomes `Err(e)`.
The `Json` wrapper only drives serialization (out of scope), so the body is
the snapshot itself. -/
def okOr (o : Option α) (e : ε) : Except ε α :=
  match o with
  | some v => .ok v
  | none => .error e

/-- Handler for `GET /measurements`:
`measurements::latest().await.map(Json).ok_or(StatusCode::NO_CONTENT)`,
reading the measurement store. -/
def get_measurements (store : Option Measurements.Measurements) :
    Except StatusCode Measurements.Measurements :=
  okOr store .noContent

/-- Handler for `GET /signal`:
`signal::latest().await.map(Json).ok_or(StatusCode::NO_CONTENT)`,
reading the signal store. -/
def get_signal (store : Option Signal.Signal) :
    Except StatusCode Signal.Signal :=
  okOr store .noContent

end Api

namespace Display

/-- The renderer's assertion on a present signal snapshot:
`assert!(signal.quality.is_finite() && signal.quality <= 1.0)`. Every
rational is finite, so the rational model keeps the upper bound. -/
def assertOk (q : ℚ) : Prop := q ≤ 1

/-- Bar-count discretization of the signal quality in `display::draw`. -/
def level (q : ℚ) : ℕ :=
  if q < 2 / 10 then 0
  else if q < 4 / 10 then 1
  else if q < 6 / 10 then 2
  else if q < 8 / 10 then 3
  else 4

/-- Endpoints of the bar segments drawn by `for i in 1..=level`: for each
`i` a line from `(107 + i * 2, 12 - i * 2)` down to `(107 + i * 2, 11)`. -/
def barLines (q : ℚ) : List ((ℤ × ℤ) × (ℤ × ℤ)) :=
  (List.range (level q)).map fun i =>
    ((107 + (Int.ofNat i + 1) * 2, 12 - (Int.ofNat i + 1) * 2),
      (107 + (Int.ofNat i + 1) * 2, 11))

end Display

/-- Modelled from the spec (rounding convention only): rounding a value to
two decimal places, used to state what the signal poller actually
publishes. -/
def round2 (x : ℚ) : ℚ := (roundAway (x * 100) : ℚ) / 100

/-- Modelled from the spec: `round(millis / 1000, 1 decimal)`, the
temperature the spec prescribes for a captured digit run. -/
def specTemperature (millis : ℕ) : ℚ :=
  (roundAway ((millis : ℚ) / 1000 * 10) : ℚ) / 10

/-- Modelled from the spec: the TDS pipeline exactly as §4.2 words it:
`voltage = code × 4.096V / 32767`, `voltage_comp = voltage / (1 + 0.02 ×
(temperature − 25))`, `tds_raw = 133.42·v³ − 255.86·v² + 857.39·v`,
`tds = round(0.5 × tds_raw, 1 decimal)`. -/
def specTds (code : ℤ) (temperature : ℚ) : ℚ :=
  let voltage := (code : ℚ) * (4096 / 1000) / 32767
  let voltage_comp := voltage / (1 + 2 / 100 * (temperature - 25))
  let tds_raw :=
    13342 / 100 * voltage_comp ^ 3 - 25586 / 100 * voltage_comp ^ 2
      + 85739 / 100 * voltage_comp
  (roundAway (1 / 2 * tds_raw * 10) : ℚ) / 10

namespace Claims

open Measurements Signal Api Display

/-- C2: for each of the two stores (measurements and signal), an update
cycle either leaves the held state unchanged or replaces it wholesale with
`some` of the complete snapshot the cycle's read produced, and an update
never returns a store to `none` once it holds a value. -/
theorem C2_store_monotone
    (content output : Except String (List Char)) (adc : Except String ℤ) (now : ℕ)
    (mstore : Option Measurements.Measurements) (sstore : Option Signal.Signal) :
    ((Measurements.update content adc now mstore).1 = mstore ∨
      ∃ m, Measurements.read content adc now = .ok m ∧
        (Measurements.update content adc now mstore).1 = some m) ∧
    (mstore ≠ none → (Measurements.update content adc now mstore).1 ≠ none) ∧
    ((Signal.update output now sstore).1 = sstore ∨
      ∃ s, Signal.read output now = .ok s ∧
        (Signal.update output now sstore).1 = some s) ∧
    (sstore ≠ none → (Signal.update output now sstore).1 ≠ none) := by
  refine ⟨?_, ?_, ?_, ?_⟩
  · cases h : Measurements.read content adc now with
    | ok m => exact Or.inr ⟨m, rfl, by simp [Measurements.update, h]⟩
    | error e => exact Or.inl (by simp [Measurements.update, h])
  · intro hne
    cases h : Measurements.read content adc now with
    | ok m => simp [Measurements.update, h]
    | error e => simpa [Measurements.update, h] using hne
  · cases h : Signal.read output now with
    | ok s => exact Or.inr ⟨s, rfl, by simp [Signal.update, h]⟩
    | error e => exact Or.inl (by simp [Signal.update, h])
  · intro hne
    cases h : Signal.read output now with
    | ok s => simp [Signal.update, h]
    | error e => simpa [Signal.update, h] using hne

/-- Witness for C2 at concrete inputs: stores already holding a snapshot do
not return to `none`. -/
theorem C2_store_monotone_witness :
    (Measurements.update (.ok []) (.ok 0) 0 (some ⟨0, 0, 0⟩)).1 ≠ none ∧
    (Signal.update (.ok []) 0 (some ⟨0, 0⟩)).1 ≠ none := by
  have h := C2_store_monotone (.ok []) (.ok []) (.ok 0) 0 (some ⟨0, 0, 0⟩) (some ⟨0, 0⟩)
  exact ⟨h.2.1 (by simp), h.2.2.2 (by simp)⟩

/-- C3: if a sampling cycle of either poller fails at any step (its read
returns an error), the corresponding store is left exactly unchanged, every
field of a previously published snapshot included. -/
theorem C3_failure_leaves_store_unchanged
    (content output : Except String (List Char)) (adc : Except String ℤ) (now : ℕ)
    (mstore : Option Measurements.Measurements) (sstore : Option Signal.Signal)
    (e e' : String)
    (hm : Measurements.read content adc now = .error e)
    (hs : Signal.read output now = .error e') :
    (Measurements.update content adc now mstore).1 = mstore ∧
    (Signal.update output now sstore).1 = sstore := by
  constructor
  · simp [Measurements.update, hm]
  · simp [Signal.update, hs]

/-- Witness for C3: on empty inputs both reads fail with a pattern-match
error and concrete previously published snapshots survive unchanged. -/
theorem C3_failure_leaves_store_unchanged_witness :
    (Measurements.update (.error "io error") (.ok 0) 0 (some ⟨7, 118 / 5, 5 / 2⟩)).1
        = some ⟨7, 118 / 5, 5 / 2⟩ ∧
    (Signal.update (.ok []) 0 (some ⟨7, 14 / 25⟩)).1 = some ⟨7, 14 / 25⟩ :=
  C3_failure_leaves_store_unchanged (.error "io error") (.ok []) (.ok 0) 0
    (some ⟨7, 118 / 5, 5 / 2⟩) (some ⟨7, 14 / 25⟩)
    "io error" "Invalid format" rfl rfl

/-- C4: `GET /measurements` responds 204 (no content) exactly when the
measurement store holds `none`, and otherwise 200 with the last published
snapshot as the body; the same law holds for `GET /signal`. -/
theorem C4_http_status_law
    (mstore : Option Measurements.Measurements) (sstore : Option Signal.Signal) :
    (Api.get_measurements mstore = .error .noContent ↔ mstore = none) ∧
    (∀ m, mstore = some m → Api.get_measurements mstore = .ok m) ∧
    (Api.get_signal sstore = .error .noContent ↔ sstore = none) ∧
    (∀ s, sstore = some s → Api.get_signal sstore = .ok s) := by
  refine ⟨?_, ?_, ?_, ?_⟩
  · cases mstore <;> simp [Api.get_measurements, Api.okOr]
  · rintro m rfl
    simp [Api.get_measurements, Api.okOr]
  · cases sstore <;> simp [Api.get_signal, Api.okOr]
  · rintro s rfl
    simp [Api.get_signal, Api.okOr]

/-- Witness for C4 at concrete stores: a held snapshot is served as the
body, an empty store yields 204. -/
theorem C4_http_status_law_witness :
    Api.get_measurements (some ⟨0, 118 / 5, 0⟩) = .ok ⟨0, 118 / 5, 0⟩ ∧
    Api.get_signal none = .error .noContent := by
  refine ⟨(C4_http_status_law (some ⟨0, 118 / 5, 0⟩) none).2.1 _ rfl, ?_⟩
  exact (C4_http_status_law (some ⟨0, 118 / 5, 0⟩) none).2.2.1.mpr rfl

/-- C1 counterexample: on the exact output `"Link Quality=39/70"` the
poller publishes quality `0.56`, not `55.71`: the code rounds the ratio to
an integer percentage and then divides by 100, so the published value is a
0–1 fraction. -/
theorem C1_counterexample :
    Signal.read (.ok ("Link Quality=39/70".data)) 0 = .ok ⟨0, 14 / 25⟩ ∧
    (14 / 25 : ℚ) ≠ 5571 / 100 := by
  constructor
  · have h : findQuality ("Link Quality=39/70".data) = some (['3', '9'], ['7', '0']) := by
      decide
    have hn : digitsToNat ['3', '9'] = 39 := by decide
    have hd : digitsToNat ['7', '0'] = 70 := by decide
    simp [Signal.read, h, hn, hd]
    norm_num [Signal.quality_of, roundAway, Int.floor_eq_iff]
  · norm_num

/-- C1 (amended): for every output matched by the quality regex, the
published quality equals the ratio `num / denom` rounded to two decimals —
equivalently `round(num / denom × 100) / 100`, a 0–1 fraction — provided
both captures fit in an `i32`. -/
theorem C1_quality_is_rounded_fraction
    (output : List Char) (now : ℕ) (nds dds : List Char)
    (h : Signal.findQuality output = some (nds, dds))
    (hn : digitsToNat nds < 2 ^ 31) (hd : digitsToNat dds < 2 ^ 31) :
    Signal.read (.ok output) now
      = .ok ⟨now, round2 ((digitsToNat nds : ℚ) / (digitsToNat dds : ℚ))⟩ := by
  simp [Signal.read, h, hn, hd, Signal.quality_of, round2]
  omega

/-- Witness for the amended C1 on the spec's own example: `39/70` publishes
`0.56`. -/
theorem C1_quality_is_rounded_fraction_witness :
    Signal.read (.ok ("Link Quality=39/70".data)) 0 = .ok ⟨0, 14 / 25⟩ := by
  have h := C1_quality_is_rounded_fraction ("Link Quality=39/70".data) 0 ['3', '9'] ['7', '0']
    (by decide) (by decide) (by decide)
  rw [show digitsToNat ['3', '9'] = 39 from by decide,
      show digitsToNat ['7', '0'] = 70 from by decide] at h
  rw [h]
  norm_num [round2, roundAway, Int.floor_eq_iff]

/-- C5: for every sensor-file content on which the temperature regex
captures a digit run that fits in an `i32`, the computed temperature equals
the captured integer taken as milli-degrees, divided by 1000 and rounded to
one decimal. -/
theorem C5_temperature_round
    (content ds : List Char)
    (h : Measurements.findTemp content = some ds)
    (hlt : digitsToNat ds < 2 ^ 31) :
    Measurements.readTemperature content = .ok (specTemperature (digitsToNat ds)) := by
  have harg : (digitsToNat ds : ℚ) / 1000 * 10 = (digitsToNat ds : ℚ) / 100 := by ring
  unfold Measurements.readTemperature
  rw [h]
  simp [hlt, Measurements.temperature_of, specTemperature, harg]
  omega

/-- Witness for C5 on the spec's own example: content `"t=23562"` yields
`23.6`. -/
theorem C5_temperature_round_witness :
    Measurements.readTemperature ("t=23562".data) = .ok (118 / 5) := by
  have h := C5_temperature_round ("t=23562".data) ['2', '3', '5', '6', '2']
    (by decide) (by decide)
  rw [show digitsToNat ['2', '3', '5', '6', '2'] = 23562 from by decide] at h
  rw [h]
  norm_num [specTemperature, roundAway, Int.floor_eq_iff]

/-- C8: for a present quality `q` in `[0, 1]`, the renderer draws 0 bars on
`[0, 0.2)`, 1 on `[0.2, 0.4)`, 2 on `[0.4, 0.6)`, 3 on `[0.6, 0.8)` and 4
on `[0.8, 1]`, and emits exactly one bar segment per level above zero. -/
theorem C8_signal_bar_discretization (q : ℚ) (_h0 : 0 ≤ q) (_h1 : q ≤ 1) :
    ((Display.level q = 0 ↔ q < 1 / 5) ∧
     (Display.level q = 1 ↔ 1 / 5 ≤ q ∧ q < 2 / 5) ∧
     (Display.level q = 2 ↔ 2 / 5 ≤ q ∧ q < 3 / 5) ∧
     (Display.level q = 3 ↔ 3 / 5 ≤ q ∧ q < 4 / 5) ∧
     (Display.level q = 4 ↔ 4 / 5 ≤ q)) ∧
    (Display.barLines q).length = Display.level q := by
  constructor
  · unfold Display.level
    split_ifs with hq1 hq2 hq3 hq4 <;>
      refine ⟨?_, ?_, ?_, ?_, ?_⟩ <;> constructor <;>
      intro hx <;> first
        | rfl
        | (exfalso; norm_num at * <;> linarith)
        | (constructor <;> linarith)
        | linarith
  · simp only [Display.barLines, List.length_map, List.length_range]

/-- Witness for C8 at `q = 0.56` (the quality the poller publishes for
`39/70`): two bars, two drawn segments. -/
theorem C8_signal_bar_discretization_witness :
    Display.level (14 / 25) = 2 ∧ (Display.barLines (14 / 25)).length = 2 := by
  have h := C8_signal_bar_discretization (14 / 25) (by norm_num) (by norm_num)
  have hl : Display.level (14 / 25) = 2 := h.1.2.2.1.mpr (by norm_num)
  exact ⟨hl, h.2.trans hl⟩

/-- C9 counterexample: the quality regex also accepts outputs whose
numerator exceeds the denominator, and then the published quality exceeds
`1.0`, so the renderer's assertion fires: for `"Link Quality=70/39"` the
poller publishes `1.79`. -/
theorem C9_counterexample :
    Signal.read (.ok ("Link Quality=70/39".data)) 0 = .ok ⟨0, 179 / 100⟩ ∧
    ¬ Display.assertOk (179 / 100) := by
  constructor
  · have h : findQuality ("Link Quality=70/39".data) = some (['7', '0'], ['3', '9']) := by
      decide
    have hn : digitsToNat ['7', '0'] = 70 := by decide
    have hd : digitsToNat ['3', '9'] = 39 := by decide
    simp [Signal.read, h, hn, hd]
    norm_num [Signal.quality_of, roundAway, Int.floor_eq_iff]
  · norm_num [Display.assertOk]

/-- C9 (amended): whenever the matched output has `num ≤ denom` with a
positive denominator — the shape `iwconfig` actually reports — the computed
quality lies in `[0, 1]`, so the renderer's assertion on it holds. -/
theorem C9_quality_bounded
    (num den : ℕ) (hden : 0 < den) (hle : num ≤ den) :
    0 ≤ Signal.quality_of num den ∧ Display.assertOk (Signal.quality_of num den) := by
  have hden' : (0 : ℚ) < den := by exact_mod_cast hden
  have hx0 : (0 : ℚ) ≤ (num : ℚ) / (den : ℚ) * 100 := by positivity
  have hx1 : (num : ℚ) / (den : ℚ) * 100 ≤ 100 := by
    have h1 : (num : ℚ) / den ≤ 1 := by
      rw [div_le_one hden']
      exact_mod_cast hle
    linarith
  have hra : roundAway ((num : ℚ) / (den : ℚ) * 100)
      = ⌊(num : ℚ) / (den : ℚ) * 100 + 1 / 2⌋ := by
    rw [roundAway, if_pos hx0]
  have h0 : (0 : ℤ) ≤ ⌊(num : ℚ) / (den : ℚ) * 100 + 1 / 2⌋ :=
    Int.le_floor.mpr (by push_cast; linarith)
  have h100 : ⌊(num : ℚ) / (den : ℚ) * 100 + 1 / 2⌋ ≤ 100 := by
    have hle' : ⌊(num : ℚ) / (den : ℚ) * 100 + 1 / 2⌋ ≤ ⌊(201 / 2 : ℚ)⌋ :=
      Int.floor_le_floor (by linarith)
    have : ⌊(201 / 2 : ℚ)⌋ = 100 := by norm_num [Int.floor_eq_iff]
    omega
  have hc0 : (0 : ℚ) ≤ (⌊(num : ℚ) / (den : ℚ) * 100 + 1 / 2⌋ : ℚ) := by
    exact_mod_cast h0
  have hc100 : ((⌊(num : ℚ) / (den : ℚ) * 100 + 1 / 2⌋ : ℤ) : ℚ) ≤ 100 := by
    exact_mod_cast h100
  unfold Signal.quality_of Display.assertOk
  rw [hra]
  constructor
  · linarith
  · linarith

/-- Witness for the amended C9 at `num = 39`, `denom = 70`. -/
theorem C9_quality_bounded_witness :
    0 ≤ Signal.quality_of 39 70 ∧ Display.assertOk (Signal.quality_of 39 70) :=
  C9_quality_bounded 39 70 (by decide) (by decide)

/-- C6: every snapshot a successful measurements tick publishes carries
`tds = round(0.5 × (133.42·v³ − 255.86·v² + 857.39·v), 1 decimal)` where
`v` is the ADC voltage `code × 4.096 / 32767` divided by the temperature
compensation `1 + 0.02 × (temperature − 25)`, the code being the signed
16-bit ADC sample. -/
theorem C6_tds_formula
    (content : Except String (List Char)) (raw : ℤ) (now : ℕ)
    (m : Measurements.Measurements)
    (_hraw : -(2 ^ 15) ≤ raw ∧ raw < 2 ^ 15)
    (h : Measurements.read content (.ok raw) now = .ok m) :
    m.tds = specTds raw m.temperature := by
  unfold Measurements.read at h
  split at h
  · cases h
  · split at h
    · cases h
    · cases h
      dsimp only
      unfold Measurements.tds_of specTds Measurements.voltage_of
        Measurements.MAX_VOLTAGE Measurements.MAX_RAW_VALUE
      ring_nf

/-- Witness for C6: the tick on content `"t=25000"` with ADC code 0
publishes temperature 25 and tds 0, and the formula agrees. -/
theorem C6_tds_formula_witness : (0 : ℚ) = specTds 0 25 := by
  have hf : Measurements.findTemp ("t=25000".data) = some ['2', '5', '0', '0', '0'] := by
    decide
  have hdg : digitsToNat ['2', '5', '0', '0', '0'] = 25000 := by decide
  have ht : Measurements.readTemperature ("t=25000".data) = .ok 25 := by
    unfold Measurements.readTemperature
    rw [hf]
    norm_num [hdg, Measurements.temperature_of, roundAway, Int.floor_eq_iff]
  have hr : Measurements.read (.ok ("t=25000".data)) (.ok 0) 0 = .ok ⟨0, 25, 0⟩ := by
    simp only [Measurements.read]
    rw [ht]
    norm_num [Measurements.tds_of, Measurements.voltage_of, Measurements.MAX_VOLTAGE,
      Measurements.MAX_RAW_VALUE, roundAway, Int.floor_eq_iff]
  have h := C6_tds_formula (.ok ("t=25000".data)) 0 0 ⟨0, 25, 0⟩ (by decide) hr
  simpa using h

/-- C7: with ADC code 0 the computed voltage is 0 and the published tds
rounds to 0, for every temperature whose compensation coefficient is
nonzero — rational division is total, so the hypothesis records that the
`f64` pipeline would divide by zero only at temperature −25, which the
sensor pipeline (non-negative temperatures) never produces. -/
theorem C7_zero_code_zero_tds (t : ℚ) (_h : 1 + 2 / 100 * (t - 25) ≠ 0) :
    Measurements.voltage_of 0 = 0 ∧ Measurements.tds_of 0 t = 0 := by
  constructor
  · simp [Measurements.voltage_of]
  · simp [Measurements.tds_of, Measurements.voltage_of]
    norm_num [roundAway, Int.floor_eq_iff]

/-- Witness for C7 at the parsed temperature 23.6. -/
theorem C7_zero_code_zero_tds_witness :
    Measurements.voltage_of 0 = 0 ∧ Measurements.tds_of 0 (118 / 5) = 0 :=
  C7_zero_code_zero_tds (118 / 5) (by norm_num)

end Claims

end Cobitis
